import Mathlib

/-!
Shallow embedding of the light-node core of the homeassistant-bluetooth-mesh
gateway: `gateway/mesh/nodes/light.py` (unit conversion engine, availability
tracker, CTL command dispatch, query operations) and
`gateway/mesh/nodes/generic.py` (`bind_model`).

Python integers are embedded as `ℤ`.  The expressions `int(1e6 / x)` and
`round(1e6 / x)` in the source operate on IEEE-754 doubles; for every integer
`x ≥ 1` the double quotient `1e6 / x` is the correctly rounded value of the
exact rational `1000000 / x`, and at these magnitudes (numerator `10^6 < 2^52`)
truncation and half-to-even rounding of the double agree with floor division
and exact rational half-to-even rounding, so they are embedded as integer
floor division (`Int.ediv`, written `/`) and `roundHalfEven` below.

The retained property cache and `notify` live in the `Node` base class of the
`mesh` package, outside this repository's source tree; they are modelled from
the spec (§4.3) where noted.
-/

namespace BleMesh

/-- `BLE_MESH_MIN_LIGHTNESS` from light.py. -/
def BLE_MESH_MIN_LIGHTNESS : ℤ := 0

/-- `BLE_MESH_MAX_LIGHTNESS` from light.py. -/
def BLE_MESH_MAX_LIGHTNESS : ℤ := 65535

/-- `BLE_MESH_MIN_TEMPERATURE` (Kelvin) from light.py. -/
def BLE_MESH_MIN_TEMPERATURE : ℤ := 800

/-- `BLE_MESH_MAX_TEMPERATURE` (Kelvin) from light.py. -/
def BLE_MESH_MAX_TEMPERATURE : ℤ := 20000

/-- `BLE_MESH_MIN_MIRED` from light.py. -/
def BLE_MESH_MIN_MIRED : ℤ := 50

/-- `BLE_MESH_MAX_MIRED` from light.py. -/
def BLE_MESH_MAX_MIRED : ℤ := 1250

/-- The configuration values a `Light` node reads in `__init__`,
`_mired_limits` and `_kelvin_limits`: `config.optional("mireds_min", 50)`,
`config.optional("mireds_max", 1250)`, `config.optional("availability_failures", 3)`
(already passed through `int(...)`). -/
structure LightConfig where
  mireds_min : ℤ
  mireds_max : ℤ
  availability_failures : ℤ
  deriving DecidableEq

/-- The configuration with every value left at its default. -/
def defaultLightConfig : LightConfig := ⟨BLE_MESH_MIN_MIRED, BLE_MESH_MAX_MIRED, 3⟩

/-- `Light._availability_threshold = max(1, config.optional("availability_failures", 3))`
from `Light.__init__`. -/
def availabilityThreshold (cfg : LightConfig) : ℤ := max 1 cfg.availability_failures

/-- `Light._mired_limits`: swap the configured limits when inverted, then force
`min_mired = max(1, min_mired)` and `max_mired = max(min_mired, max_mired)`. -/
def miredLimits (cfg : LightConfig) : ℤ × ℤ :=
  let a := cfg.mireds_min
  let b := cfg.mireds_max
  let mn := if a > b then b else a
  let mx := if a > b then a else b
  let mn2 := max 1 mn
  let mx2 := max mn2 mx
  (mn2, mx2)

/-- `Light._kelvin_limits`: `min_kelvin = max(800, int(1e6 / max_mired))`,
`max_kelvin = min(20000, int(1e6 / min_mired))`, swapped when inverted.
`int(1e6 / x)` is floor division here (see the module comment). -/
def kelvinLimits (cfg : LightConfig) : ℤ × ℤ :=
  let mnm := (miredLimits cfg).1
  let mxm := (miredLimits cfg).2
  let mnk := max BLE_MESH_MIN_TEMPERATURE (1000000 / mxm)
  let mxk := min BLE_MESH_MAX_TEMPERATURE (1000000 / mnm)
  if mnk > mxk then (mxk, mnk) else (mnk, mxk)

/-- `Light._clamp_kelvin`: clamp a Kelvin value to the derived Kelvin range. -/
def clampKelvin (cfg : LightConfig) (kelvin : ℤ) : ℤ :=
  if kelvin < (kelvinLimits cfg).1 then (kelvinLimits cfg).1
  else if kelvin > (kelvinLimits cfg).2 then (kelvinLimits cfg).2
  else kelvin

/-- Round `n / d` (for `d > 0`) to the nearest integer, ties to the even
neighbour: Python's `round` applied to the exact quotient. -/
def roundHalfEven (n d : ℤ) : ℤ :=
  if 2 * (n % d) < d then n / d
  else if d < 2 * (n % d) then n / d + 1
  else if (n / d) % 2 = 0 then n / d else n / d + 1

/-- `Light.kelvin_to_mireds`: `max_mired` for non-positive Kelvin, otherwise
`round(1e6 / kelvin)` clamped to the mired range. -/
def kelvinToMireds (cfg : LightConfig) (kelvin : ℤ) : ℤ :=
  if kelvin ≤ 0 then (miredLimits cfg).2
  else
    let mired := roundHalfEven 1000000 kelvin
    if mired < (miredLimits cfg).1 then (miredLimits cfg).1
    else if mired > (miredLimits cfg).2 then (miredLimits cfg).2
    else mired

/-- `Light.kelvin_to_tuya_level`: clamp, guard the degenerate range, then
linearly rescale `[min_kelvin, max_kelvin]` onto `[800, 20000]` and round.
The Python expression `(k - mn) * 19200 / (mx - mn) + 800` is a single float
division followed by `round`; it is embedded as half-to-even rounding of the
exact rational `((k - mn) * 19200 + 800 * (mx - mn)) / (mx - mn)`. -/
def kelvinToTuyaLevel (cfg : LightConfig) (kelvin : ℤ) : ℤ :=
  let mn := (kelvinLimits cfg).1
  let mx := (kelvinLimits cfg).2
  let k := clampKelvin cfg kelvin
  if mx = mn then BLE_MESH_MIN_TEMPERATURE
  else
    roundHalfEven
      ((k - mn) * (BLE_MESH_MAX_TEMPERATURE - BLE_MESH_MIN_TEMPERATURE)
        + BLE_MESH_MIN_TEMPERATURE * (mx - mn))
      (mx - mn)

lemma miredLimits_one_le (cfg : LightConfig) : 1 ≤ (miredLimits cfg).1 := by
  simp only [miredLimits]
  split_ifs <;> omega

lemma miredLimits_fst_le_snd (cfg : LightConfig) :
    (miredLimits cfg).1 ≤ (miredLimits cfg).2 := by
  simp only [miredLimits]
  split_ifs <;> omega

lemma kelvinLimits_fst_le_snd (cfg : LightConfig) :
    (kelvinLimits cfg).1 ≤ (kelvinLimits cfg).2 := by
  simp only [kelvinLimits]
  generalize (1000000 : ℤ) / (miredLimits cfg).2 = A
  generalize (1000000 : ℤ) / (miredLimits cfg).1 = B
  simp only [BLE_MESH_MIN_TEMPERATURE, BLE_MESH_MAX_TEMPERATURE]
  split_ifs <;> simp <;> omega

lemma clampKelvin_mem (cfg : LightConfig) (k : ℤ) :
    (kelvinLimits cfg).1 ≤ clampKelvin cfg k ∧ clampKelvin cfg k ≤ (kelvinLimits cfg).2 := by
  have h := kelvinLimits_fst_le_snd cfg
  simp only [clampKelvin]
  split_ifs <;> omega

lemma clampKelvin_eq_self (cfg : LightConfig) (k : ℤ)
    (h1 : (kelvinLimits cfg).1 ≤ k) (h2 : k ≤ (kelvinLimits cfg).2) :
    clampKelvin cfg k = k := by
  simp only [clampKelvin]
  split_ifs <;> omega

lemma rheAux_mono (d f r f' r' : ℤ) (_hr : 0 ≤ r) (_hrd : r < d) (_hr' : 0 ≤ r') (_hrd' : r' < d)
    (hle : f < f' ∨ (f = f' ∧ r ≤ r')) :
    (if 2 * r < d then f else if d < 2 * r then f + 1 else if f % 2 = 0 then f else f + 1) ≤
      (if 2 * r' < d then f' else if d < 2 * r' then f' + 1
        else if f' % 2 = 0 then f' else f' + 1) := by
  split_ifs <;> omega

lemma roundHalfEven_mono (n n' d : ℤ) (hd : 0 < d) (h : n ≤ n') :
    roundHalfEven n d ≤ roundHalfEven n' d := by
  have hf : n / d ≤ n' / d := Int.ediv_le_ediv hd h
  have e1 : d * (n / d) + n % d = n := Int.ediv_add_emod n d
  have e2 : d * (n' / d) + n' % d = n' := Int.ediv_add_emod n' d
  have hr : 0 ≤ n % d := Int.emod_nonneg n hd.ne'
  have hrd : n % d < d := Int.emod_lt_of_pos n hd
  have hr' : 0 ≤ n' % d := Int.emod_nonneg n' hd.ne'
  have hrd' : n' % d < d := Int.emod_lt_of_pos n' hd
  have key : n / d < n' / d ∨ (n / d = n' / d ∧ n % d ≤ n' % d) := by
    rcases lt_or_eq_of_le hf with hlt | heq
    · exact Or.inl hlt
    · refine Or.inr ⟨heq, ?_⟩
      rw [← heq] at e2
      linarith
  have := rheAux_mono d (n / d) (n % d) (n' / d) (n' % d) hr hrd hr' hrd' key
  simpa [roundHalfEven] using this

lemma roundHalfEven_mul (k d : ℤ) (hd : 0 < d) : roundHalfEven (k * d) d = k := by
  unfold roundHalfEven
  rw [Int.mul_ediv_cancel _ (ne_of_gt hd), Int.mul_emod_left]
  rw [if_pos (by omega)]

/-- C5: for every configured mired pair, an inverted pair is swapped before any
further use (configured `(500, 100)` becomes `(100, 500)`); the Kelvin range is
derived from the resulting mired range as
`min_kelvin = max(800, 1e6 / max_mired)`, `max_kelvin = min(20000, 1e6 / min_mired)`,
swapped again when inverted; and `clampKelvin` clamps its argument to the
derived `[min_kelvin, max_kelvin]` range. -/
theorem mired_swap_and_kelvin_derivation (cfg : LightConfig) (k : ℤ)
    (hinv : cfg.mireds_max < cfg.mireds_min) :
    miredLimits cfg = miredLimits ⟨cfg.mireds_max, cfg.mireds_min, cfg.availability_failures⟩
  ∧ miredLimits ⟨500, 100, 3⟩ = (100, 500)
  ∧ kelvinLimits cfg =
      (if max BLE_MESH_MIN_TEMPERATURE (1000000 / (miredLimits cfg).2)
           > min BLE_MESH_MAX_TEMPERATURE (1000000 / (miredLimits cfg).1) then
        (min BLE_MESH_MAX_TEMPERATURE (1000000 / (miredLimits cfg).1),
         max BLE_MESH_MIN_TEMPERATURE (1000000 / (miredLimits cfg).2))
      else
        (max BLE_MESH_MIN_TEMPERATURE (1000000 / (miredLimits cfg).2),
         min BLE_MESH_MAX_TEMPERATURE (1000000 / (miredLimits cfg).1)))
  ∧ clampKelvin cfg k = max (kelvinLimits cfg).1 (min (kelvinLimits cfg).2 k) := by
  refine ⟨?_, by decide, rfl, ?_⟩
  · simp only [miredLimits]
    split_ifs <;> first | rfl | omega
  · have h := kelvinLimits_fst_le_snd cfg
    simp only [clampKelvin]
    split_ifs <;> omega

/-- Witness for C5 at the configured pair `(500, 100)` and `k = 5`. -/
theorem mired_swap_and_kelvin_derivation_witness :
    miredLimits ⟨500, 100, 3⟩ = miredLimits ⟨100, 500, 3⟩
  ∧ clampKelvin ⟨500, 100, 3⟩ 5 = max (kelvinLimits ⟨500, 100, 3⟩).1
      (min (kelvinLimits ⟨500, 100, 3⟩).2 5) :=
  ⟨(mired_swap_and_kelvin_derivation ⟨500, 100, 3⟩ 5 (by decide)).1,
   (mired_swap_and_kelvin_derivation ⟨500, 100, 3⟩ 5 (by decide)).2.2.2⟩

/-- C6: `kelvin_to_tuya_level` is monotonically non-decreasing in its Kelvin
argument over `[min_kelvin, max_kelvin]`, returns exactly 800 at `min_kelvin`
and exactly 20000 at `max_kelvin` (for a non-degenerate range), and returns
800 whenever `min_kelvin = max_kelvin`. -/
theorem kelvin_to_tuya_level_correct (cfg : LightConfig) (k k1 k2 : ℤ) :
    ((kelvinLimits cfg).1 ≤ k1 → k1 ≤ k2 → k2 ≤ (kelvinLimits cfg).2 →
        kelvinToTuyaLevel cfg k1 ≤ kelvinToTuyaLevel cfg k2)
  ∧ kelvinToTuyaLevel cfg (kelvinLimits cfg).1 = 800
  ∧ ((kelvinLimits cfg).1 < (kelvinLimits cfg).2 →
        kelvinToTuyaLevel cfg (kelvinLimits cfg).2 = 20000)
  ∧ ((kelvinLimits cfg).1 = (kelvinLimits cfg).2 → kelvinToTuyaLevel cfg k = 800) := by
  have hle := kelvinLimits_fst_le_snd cfg
  refine ⟨?_, ?_, ?_, ?_⟩
  · intro hk1 hk12 hk2
    by_cases hdeg : (kelvinLimits cfg).2 = (kelvinLimits cfg).1
    · simp [kelvinToTuyaLevel, hdeg]
    · have hd : 0 < (kelvinLimits cfg).2 - (kelvinLimits cfg).1 := by omega
      simp only [kelvinToTuyaLevel]
      rw [if_neg hdeg, if_neg hdeg]
      rw [clampKelvin_eq_self cfg k1 hk1 (by omega), clampKelvin_eq_self cfg k2 (by omega) hk2]
      apply roundHalfEven_mono _ _ _ hd
      have hmul := mul_le_mul_of_nonneg_right (sub_le_sub_right hk12 (kelvinLimits cfg).1)
        (by norm_num [BLE_MESH_MAX_TEMPERATURE, BLE_MESH_MIN_TEMPERATURE] :
          (0:ℤ) ≤ BLE_MESH_MAX_TEMPERATURE - BLE_MESH_MIN_TEMPERATURE)
      linarith
  · by_cases hdeg : (kelvinLimits cfg).2 = (kelvinLimits cfg).1
    · simp [kelvinToTuyaLevel, hdeg, BLE_MESH_MIN_TEMPERATURE]
    · have hd : 0 < (kelvinLimits cfg).2 - (kelvinLimits cfg).1 := by omega
      simp only [kelvinToTuyaLevel]
      rw [if_neg hdeg, clampKelvin_eq_self cfg _ le_rfl hle]
      have h0 : ((kelvinLimits cfg).1 - (kelvinLimits cfg).1)
            * (BLE_MESH_MAX_TEMPERATURE - BLE_MESH_MIN_TEMPERATURE)
          + BLE_MESH_MIN_TEMPERATURE * ((kelvinLimits cfg).2 - (kelvinLimits cfg).1)
          = BLE_MESH_MIN_TEMPERATURE * ((kelvinLimits cfg).2 - (kelvinLimits cfg).1) := by ring
      rw [h0, roundHalfEven_mul _ _ hd]
      rfl
  · intro hlt
    have hdeg : ¬ (kelvinLimits cfg).2 = (kelvinLimits cfg).1 := by omega
    have hd : 0 < (kelvinLimits cfg).2 - (kelvinLimits cfg).1 := by omega
    simp only [kelvinToTuyaLevel]
    rw [if_neg hdeg, clampKelvin_eq_self cfg _ hle le_rfl]
    have h0 : ((kelvinLimits cfg).2 - (kelvinLimits cfg).1)
          * (BLE_MESH_MAX_TEMPERATURE - BLE_MESH_MIN_TEMPERATURE)
        + BLE_MESH_MIN_TEMPERATURE * ((kelvinLimits cfg).2 - (kelvinLimits cfg).1)
        = BLE_MESH_MAX_TEMPERATURE * ((kelvinLimits cfg).2 - (kelvinLimits cfg).1) := by ring
    rw [h0, roundHalfEven_mul _ _ hd]
    rfl
  · intro hdeg
    simp [kelvinToTuyaLevel, hdeg, BLE_MESH_MIN_TEMPERATURE]

/-- Witness for C6: monotonicity on the default range, the 20000 endpoint for
the default limits, and the degenerate guard for mired limits `(1250, 1250)`
(whose Kelvin range is `(800, 800)`). -/
theorem kelvin_to_tuya_level_correct_witness :
    kelvinToTuyaLevel defaultLightConfig 1000 ≤ kelvinToTuyaLevel defaultLightConfig 2000
  ∧ kelvinToTuyaLevel defaultLightConfig (kelvinLimits defaultLightConfig).2 = 20000
  ∧ kelvinToTuyaLevel ⟨1250, 1250, 3⟩ 12345 = 800 :=
  ⟨(kelvin_to_tuya_level_correct defaultLightConfig 0 1000 2000).1
      (by decide) (by decide) (by decide),
   (kelvin_to_tuya_level_correct defaultLightConfig 0 0 0).2.2.1 (by decide),
   (kelvin_to_tuya_level_correct ⟨1250, 1250, 3⟩ 12345 0 0).2.2.2 (by decide)⟩

/-- C8: `clampKelvin` is idempotent for every configuration and every Kelvin
value. -/
theorem clamp_kelvin_idempotent (cfg : LightConfig) (k : ℤ) :
    clampKelvin cfg (clampKelvin cfg k) = clampKelvin cfg k := by
  have h := kelvinLimits_fst_le_snd cfg
  simp only [clampKelvin]
  split_ifs <;> omega

/-- C10: for every configuration (negative, zero or inverted mired values
included) the mired limits satisfy `1 ≤ min_mired ≤ max_mired`, the Kelvin
limits satisfy `min_kelvin ≤ max_kelvin`, `clampKelvin` and `kelvin_to_mireds`
always land inside the respective range, and the availability threshold is
always at least 1. -/
theorem limits_invariants (cfg : LightConfig) (k : ℤ) :
    1 ≤ (miredLimits cfg).1
  ∧ (miredLimits cfg).1 ≤ (miredLimits cfg).2
  ∧ (kelvinLimits cfg).1 ≤ (kelvinLimits cfg).2
  ∧ (kelvinLimits cfg).1 ≤ clampKelvin cfg k ∧ clampKelvin cfg k ≤ (kelvinLimits cfg).2
  ∧ (miredLimits cfg).1 ≤ kelvinToMireds cfg k ∧ kelvinToMireds cfg k ≤ (miredLimits cfg).2
  ∧ 1 ≤ availabilityThreshold cfg := by
  have h1 := miredLimits_one_le cfg
  have h2 := miredLimits_fst_le_snd cfg
  have h3 := kelvinLimits_fst_le_snd cfg
  have h4 := clampKelvin_mem cfg k
  refine ⟨h1, h2, h3, h4.1, h4.2, ?_, ?_, le_max_left 1 _⟩ <;>
  · simp only [kelvinToMireds]
    split_ifs <;> omega

/-- The availability state a `Light` node tracks: `_availability_state` starts
as Python `None` (unknown) and thereafter holds `"online"` or `"offline"`. -/
inductive AvState where
  | unknown : AvState
  | online : AvState
  | offline : AvState
  deriving DecidableEq

/-- `_availability_failures` together with `_availability_state`. -/
structure Availability where
  failures : ℤ
  state : AvState
  deriving DecidableEq

/-- A `(property, value)` change event emitted through `notify`.  Modelled from
the spec (§4.3): `notify` emits a change event to all subscribers. -/
abbrev AvNotif := String × String

/-- `Light._availability_success`: reset the failure counter, and when the
state is not already online, set it online and notify once. -/
def availabilitySuccess (av : Availability) : Availability × List AvNotif :=
  if av.state ≠ AvState.online then
    (⟨0, AvState.online⟩, [("availability", "online")])
  else
    (⟨0, av.state⟩, [])

/-- `Light._availability_failure`: increment the failure counter, and when it
has reached the threshold and the state is not already offline, set it offline
and notify once. -/
def availabilityFailure (t : ℤ) (av : Availability) : Availability × List AvNotif :=
  let failures := av.failures + 1
  if failures ≥ t then
    if av.state ≠ AvState.offline then
      (⟨failures, AvState.offline⟩, [("availability", "offline")])
    else
      (⟨failures, av.state⟩, [])
  else
    (⟨failures, av.state⟩, [])

/-- One recorded probe outcome. -/
inductive AvEvent where
  | success : AvEvent
  | failure : AvEvent

/-- Record one probe outcome. -/
def availabilityStep (t : ℤ) (av : Availability) : AvEvent → Availability × List AvNotif
  | AvEvent.success => availabilitySuccess av
  | AvEvent.failure => availabilityFailure t av

/-- Record a sequence of probe outcomes, collecting all emitted notifications. -/
def availabilityRun (t : ℤ) (av : Availability) : List AvEvent → Availability × List AvNotif
  | [] => (av, [])
  | e :: es =>
    let s1 := availabilityStep t av e
    let s2 := availabilityRun t s1.1 es
    (s2.1, s1.2 ++ s2.2)

lemma availabilityRun_append (t : ℤ) (av : Availability) (l1 l2 : List AvEvent) :
    availabilityRun t av (l1 ++ l2)
      = ((availabilityRun t (availabilityRun t av l1).1 l2).1,
         (availabilityRun t av l1).2 ++ (availabilityRun t (availabilityRun t av l1).1 l2).2) := by
  induction l1 generalizing av with
  | nil => simp [availabilityRun]
  | cons e es ih =>
    simp only [List.cons_append, availabilityRun, List.append_eq]
    rw [ih]
    simp [List.append_assoc]

lemma availabilityFailure_below (t : ℤ) (f : ℤ) (s : AvState) (h : f + 1 < t) :
    availabilityFailure t ⟨f, s⟩ = (⟨f + 1, s⟩, []) := by
  simp only [availabilityFailure]
  rw [if_neg (by omega)]

lemma availabilityRun_replicate_failure (t : ℤ) (k : ℕ) (f : ℤ) (s : AvState)
    (hk : f + k < t) :
    availabilityRun t ⟨f, s⟩ (List.replicate k AvEvent.failure) = (⟨f + k, s⟩, []) := by
  induction k generalizing f with
  | zero => simp [availabilityRun]
  | succ n ih =>
    rw [List.replicate_succ]
    simp only [availabilityRun, availabilityStep]
    have hc : ((n : ℤ) + 1) = ((n + 1 : ℕ) : ℤ) := by push_cast; ring
    rw [availabilityFailure_below t f s (by omega)]
    rw [ih (f + 1) (by omega)]
    refine Prod.ext ?_ (by simp)
    simp only
    congr 1
    omega

/-- C1: for the availability tracker with threshold `t ≥ 1`: a recorded
success resets the failure counter to 0 and, exactly when the state is not
already online, flips it online with one `availability=online` notification; a
recorded failure increments the counter and, exactly when the counter has
reached `t` and the state is not already offline, flips it offline with one
`availability=offline` notification; from the initial state a run of exactly
`t` consecutive failures emits the offline notification exactly once, on the
`t`-th failure (after `t - 1` failures nothing has been emitted), and a single
success interleaved after `j` failures (`1 ≤ j ≤ t - 1`) resets the counter so
that the remaining `t - j` failures cause no offline transition at all. -/
theorem availability_tracker_correct (t j : ℤ) (av : Availability)
    (ht : 1 ≤ t) (hj1 : 1 ≤ j) (hj2 : j ≤ t - 1) :
    availabilitySuccess av
      = (⟨0, AvState.online⟩,
         if av.state = AvState.online then [] else [("availability", "online")])
  ∧ availabilityFailure t av
      = (⟨av.failures + 1,
          if t ≤ av.failures + 1 ∧ av.state ≠ AvState.offline then AvState.offline
          else av.state⟩,
         if t ≤ av.failures + 1 ∧ av.state ≠ AvState.offline then
           [("availability", "offline")]
         else [])
  ∧ availabilityRun t ⟨0, AvState.unknown⟩ (List.replicate t.toNat AvEvent.failure)
      = (⟨t, AvState.offline⟩, [("availability", "offline")])
  ∧ availabilityRun t ⟨0, AvState.unknown⟩ (List.replicate (t - 1).toNat AvEvent.failure)
      = (⟨t - 1, AvState.unknown⟩, [])
  ∧ availabilityRun t ⟨0, AvState.unknown⟩
        (List.replicate j.toNat AvEvent.failure
          ++ AvEvent.success :: List.replicate (t - j).toNat AvEvent.failure)
      = (⟨t - j, AvState.online⟩, [("availability", "online")]) := by
  have hrep : ∀ (k : ℤ) (s : AvState), 0 ≤ k → k < t →
      availabilityRun t ⟨0, s⟩ (List.replicate k.toNat AvEvent.failure) = (⟨k, s⟩, []) := by
    intro k s hk0 hkt
    have := availabilityRun_replicate_failure t k.toNat 0 s (by omega)
    rwa [zero_add, Int.toNat_of_nonneg hk0] at this
  refine ⟨?_, ?_, ?_, hrep (t - 1) AvState.unknown (by omega) (by omega), ?_⟩
  · simp only [availabilitySuccess]
    split_ifs with h <;> simp_all
  · simp only [availabilityFailure]
    split_ifs with h1 h2 <;> simp_all
  · have hsplit : t.toNat = (t - 1).toNat + 1 := by omega
    rw [hsplit, List.replicate_succ', availabilityRun_append,
      hrep (t - 1) AvState.unknown (by omega) (by omega)]
    simp only [availabilityRun, availabilityStep, availabilityFailure]
    rw [if_pos (by omega : t - 1 + 1 ≥ t), if_pos (by simp)]
    refine Prod.ext ?_ (by simp)
    simp only
    congr 1
    omega
  · rw [availabilityRun_append, hrep j AvState.unknown (by omega) (by omega)]
    simp only [availabilityRun, availabilityStep, availabilitySuccess]
    rw [if_pos (by simp)]
    rw [availabilityRun_replicate_failure t (t - j).toNat 0 AvState.online (by omega)]
    simp only [zero_add, List.nil_append, List.append_nil]
    refine Prod.ext ?_ rfl
    simp only
    congr 1
    omega

/-- Witness for C1 at threshold 3 with the success interleaved after the first
failure. -/
theorem availability_tracker_correct_witness :
    availabilityRun 3 ⟨0, AvState.unknown⟩ (List.replicate (3 : ℤ).toNat AvEvent.failure)
      = (⟨3, AvState.offline⟩, [("availability", "offline")])
  ∧ availabilityRun 3 ⟨0, AvState.unknown⟩
        (List.replicate (1 : ℤ).toNat AvEvent.failure
          ++ AvEvent.success :: List.replicate ((3 : ℤ) - 1).toNat AvEvent.failure)
      = (⟨(3 : ℤ) - 1, AvState.online⟩, [("availability", "online")]) :=
  ⟨(availability_tracker_correct 3 1 ⟨0, AvState.unknown⟩
      (by decide) (by decide) (by decide)).2.2.1,
   (availability_tracker_correct 3 1 ⟨0, AvState.unknown⟩
      (by decide) (by decide) (by decide)).2.2.2.2⟩

/-- The retained property cache of a node, keyed by property name.  The cache
itself lives in the `Node` base class outside this repository's source. -/
abbrev Cache := String → Option ℤ

/-- Modelled from the spec: `notify(property, value)` unconditionally
overwrites the retained cache entry (§4.3); the code for `Node.notify` is not
under `src/`. -/
def notifyCache (c : Cache) (p : String) (v : ℤ) : Cache :=
  fun q => if q = p then some v else c q

/-- Modelled from the spec: `retained(property, default)` returns the cached
value or the default if absent (§4.3); the code for `Node.retained` is not
under `src/`. -/
def retained (c : Cache) (p : String) (d : ℤ) : ℤ :=
  (c p).getD d

/-- Python truthiness of an optional integer argument: `None` and `0` are
falsy, every other integer is truthy. -/
def pyTruthy : Option ℤ → Bool
  | some v => v != 0
  | none => false

/-- The outgoing `client.set_ctl_unack` / `client.set_ctl` request.
`ctl_lightness` is `none` when the call passes no lightness argument (the
acknowledged `set_ctl` never does). -/
structure CtlRequest where
  destination : ℤ
  app_index : ℤ
  ctl_temperature : ℤ
  ctl_lightness : Option ℤ
  deriving DecidableEq

/-- `Light.set_ctl_unack`: truthy temperature is clamped; truthy brightness is
capped at 65535; each truthy argument is notified (which writes the cache),
each falsy one replaced by the retained value (default 20000 K / 65535); with
`is_tuya` the temperature is rescaled through `kelvin_to_tuya_level`.  Returns
the updated cache, the emitted notifications in order, and the request. -/
def setCtlUnack (cfg : LightConfig) (unicast app_index : ℤ) (cache : Cache)
    (temperature brightness : Option ℤ) (is_tuya : Bool) :
    Cache × List (String × ℤ) × CtlRequest :=
  let temperature :=
    if pyTruthy temperature then some (clampKelvin cfg (temperature.getD 0)) else temperature
  let brightness :=
    match brightness with
    | some b => if b ≠ 0 ∧ b > BLE_MESH_MAX_LIGHTNESS then some BLE_MESH_MAX_LIGHTNESS else some b
    | none => none
  let step1 :=
    if pyTruthy temperature then
      (notifyCache cache "temperature" (temperature.getD 0),
       [("temperature", temperature.getD 0)],
       temperature.getD 0)
    else
      (cache, ([] : List (String × ℤ)), retained cache "temperature" BLE_MESH_MAX_TEMPERATURE)
  let step2 :=
    if pyTruthy brightness then
      (notifyCache step1.1 "brightness" (brightness.getD 0),
       [("brightness", brightness.getD 0)],
       brightness.getD 0)
    else
      (step1.1, ([] : List (String × ℤ)), retained step1.1 "brightness" BLE_MESH_MAX_LIGHTNESS)
  let ctl_temperature := if is_tuya then kelvinToTuyaLevel cfg step1.2.2 else step1.2.2
  (step2.1, step1.2.1 ++ step2.2.1, ⟨unicast, app_index, ctl_temperature, some step2.2.2⟩)

/-- `Light.set_ctl` (acknowledged): truthy temperature is clamped and notified,
falsy temperature replaced by the retained value; the outgoing request carries
no lightness argument at all. -/
def setCtl (cfg : LightConfig) (unicast app_index : ℤ) (cache : Cache)
    (temperature : Option ℤ) (is_tuya : Bool) :
    Cache × List (String × ℤ) × CtlRequest :=
  let temperature :=
    if pyTruthy temperature then some (clampKelvin cfg (temperature.getD 0)) else temperature
  let step1 :=
    if pyTruthy temperature then
      (notifyCache cache "temperature" (temperature.getD 0),
       [("temperature", temperature.getD 0)],
       temperature.getD 0)
    else
      (cache, ([] : List (String × ℤ)), retained cache "temperature" BLE_MESH_MAX_TEMPERATURE)
  let ctl_temperature := if is_tuya then kelvinToTuyaLevel cfg step1.2.2 else step1.2.2
  (step1.1, step1.2.1, ⟨unicast, app_index, ctl_temperature, none⟩)

/-- `Light.mireds_to_kelvin`: when the CTL server model is bound, convert
`max(1, 1000000 // mired)`, clamp it, and dispatch to the acknowledged or
unacknowledged CTL setter; when the model is not bound, do nothing. -/
def miredsToKelvinCommand (cfg : LightConfig) (unicast app_index : ℤ) (cache : Cache)
    (ctlBound : Bool) (temperature : ℤ) (ack is_tuya : Bool) :
    Option (Cache × List (String × ℤ) × CtlRequest) :=
  if ctlBound then
    let kelvin := max 1 (1000000 / temperature)
    let kelvin := clampKelvin cfg kelvin
    some (if ack then setCtl cfg unicast app_index cache (some kelvin) is_tuya
          else setCtlUnack cfg unicast app_index cache (some kelvin) none is_tuya)
  else
    none

/-- A cache retaining brightness 123 and nothing else. -/
def sampleCache : Cache := fun p => if p = "brightness" then some 123 else none

/-- Counterexample to C4: the acknowledged `set_ctl` with a temperature and no
brightness does not substitute the retained brightness (123) as the lightness
field of the outgoing request — the request carries no lightness field at
all. -/
theorem set_ctl_ack_no_lightness_counterexample :
    (setCtl defaultLightConfig 7 0 sampleCache (some 3000) false).2.2.ctl_lightness
      ≠ some (retained sampleCache "brightness" BLE_MESH_MAX_LIGHTNESS) := by
  decide

/-- C4 as amended: for the unacknowledged `set_ctl_unack` with a temperature
and no brightness argument, the retained brightness cache entry is unchanged,
no brightness notification is emitted, and the previously retained brightness
value is substituted as the lightness field of the outgoing request; the
acknowledged `set_ctl` likewise leaves the brightness entry unchanged and
emits no brightness notification, but its outgoing request includes no
lightness field at all. -/
theorem set_ctl_partial_update (cfg : LightConfig) (u a tv : ℤ) (cache : Cache) (tuya : Bool) :
    (setCtlUnack cfg u a cache (some tv) none tuya).1 "brightness" = cache "brightness"
  ∧ ((setCtlUnack cfg u a cache (some tv) none tuya).2.1.filter
       (fun n => n.1 == "brightness")) = []
  ∧ (setCtlUnack cfg u a cache (some tv) none tuya).2.2.ctl_lightness
      = some (retained cache "brightness" BLE_MESH_MAX_LIGHTNESS)
  ∧ (setCtl cfg u a cache (some tv) tuya).1 "brightness" = cache "brightness"
  ∧ ((setCtl cfg u a cache (some tv) tuya).2.1.filter (fun n => n.1 == "brightness")) = []
  ∧ (setCtl cfg u a cache (some tv) tuya).2.2.ctl_lightness = none := by
  simp only [setCtlUnack, setCtl, pyTruthy]
  by_cases htv : tv = 0
  · simp [htv, notifyCache, retained, List.filter]
  · by_cases hcl : clampKelvin cfg tv = 0 <;>
      simp [htv, hcl, notifyCache, retained, List.filter]

/-- C9: `set_ctl_unack` treats an explicit zero temperature or brightness
exactly like an absent argument — no clamping, no cache write, no
notification; the outgoing request carries the retained value instead (or the
default maximum 20000 K / 65535 when nothing is retained), so the explicit
zero never reaches the request. -/
theorem set_ctl_zero_treated_absent (cfg : LightConfig) (u a : ℤ) (cache : Cache)
    (tOpt bOpt : Option ℤ) (tuya : Bool) :
    setCtlUnack cfg u a cache (some 0) bOpt tuya = setCtlUnack cfg u a cache none bOpt tuya
  ∧ setCtlUnack cfg u a cache tOpt (some 0) tuya = setCtlUnack cfg u a cache tOpt none tuya
  ∧ setCtlUnack cfg u a cache (some 0) (some 0) false
      = (cache, [],
         ⟨u, a, retained cache "temperature" BLE_MESH_MAX_TEMPERATURE,
          some (retained cache "brightness" BLE_MESH_MAX_LIGHTNESS)⟩)
  ∧ setCtlUnack cfg u a (fun _ => none) (some 0) (some 0) false
      = ((fun _ => none), [],
         ⟨u, a, BLE_MESH_MAX_TEMPERATURE, some BLE_MESH_MAX_LIGHTNESS⟩) := by
  refine ⟨?_, ?_, rfl, rfl⟩
  · simp [setCtlUnack, pyTruthy]
  · simp only [setCtlUnack, pyTruthy]
    by_cases ht : pyTruthy tOpt <;> simp [pyTruthy, ht]

/-- C7: the mireds-command path with the CTL model bound computes
`kelvin = max(1, 1000000 // mired)`, clamps it via `clampKelvin`, and passes
the result as the temperature of the dispatched CTL request; with default
limits an input of 370 mireds yields 2702 Kelvin, inside the derived range
`[800, 20000]` and unchanged by the clamp, and 2702 is the temperature of the
outgoing request. -/
theorem mireds_command_correct (cfg : LightConfig) (u a m : ℤ) (cache : Cache)
    (ack tuya : Bool) (_hm : 0 < m) :
    miredsToKelvinCommand cfg u a cache true m ack tuya
      = some (if ack then
                setCtl cfg u a cache (some (clampKelvin cfg (max 1 (1000000 / m)))) tuya
              else
                setCtlUnack cfg u a cache (some (clampKelvin cfg (max 1 (1000000 / m)))) none tuya)
  ∧ max 1 ((1000000 : ℤ) / 370) = 2702
  ∧ clampKelvin defaultLightConfig 2702 = 2702
  ∧ (kelvinLimits defaultLightConfig).1 ≤ 2702
  ∧ 2702 ≤ (kelvinLimits defaultLightConfig).2
  ∧ (miredsToKelvinCommand defaultLightConfig u a cache true 370 false false).map
        (fun r => r.2.2.ctl_temperature) = some 2702 := by
  exact ⟨rfl, by decide, by decide, by decide, by decide, rfl⟩

/-- Witness for C7 at 370 mireds with default limits. -/
theorem mireds_command_correct_witness :
    (miredsToKelvinCommand defaultLightConfig 1 0 (fun _ => none) true 370 false false).map
        (fun r => r.2.2.ctl_temperature) = some 2702 :=
  (mireds_command_correct defaultLightConfig 1 0 370 (fun _ => none) false false
    (by decide)).2.2.2.2.2

/-- One per-node entry of a multi-address response from the external client:
the Python value can be `None`, a `BaseException`, or a result dict (only the
extracted integer field is modelled). -/
inductive Entry where
  | null : Entry
  | err : Entry
  | ok : ℤ → Entry
  deriving DecidableEq

/-- The outcome of an awaited client call: an exception raised by the call, or
the returned mapping (which itself can be Python `None`). -/
abbrev CallResult := Except String (Option (ℤ → Option Entry))

/-- `Light.get_availability`: the awaited probe is wrapped in
`try`/`except Exception`, the mapping is read with `(state or {}).get(unicast)`,
and a missing, `None` or exception-typed entry counts as an availability
failure while a valid entry counts as a success.  Total: no outcome raises. -/
def getAvailability (t : ℤ) (av : Availability) (unicast : ℤ) (call : CallResult) :
    Availability × List AvNotif :=
  match call with
  | Except.error _ => availabilityFailure t av
  | Except.ok st =>
    match (st.getD (fun _ => none)) unicast with
    | none => availabilityFailure t av
    | some Entry.null => availabilityFailure t av
    | some Entry.err => availabilityFailure t av
    | some (Entry.ok _) => availabilitySuccess av

/-- `Light.get_onoff`: the awaited call is not wrapped in `try`, indexing a
`None` mapping raises `TypeError` and `state[self.unicast]` raises `KeyError`
on a missing entry; a `None` or exception-typed entry is only logged, and a
valid entry notifies `onoff` with `present_onoff`. -/
def getOnoff (unicast : ℤ) (call : CallResult) : Except String (List (String × ℤ)) :=
  match call with
  | Except.error e => Except.error e
  | Except.ok none => Except.error "TypeError"
  | Except.ok (some st) =>
    match st unicast with
    | none => Except.error "KeyError"
    | some Entry.null => Except.ok []
    | some Entry.err => Except.ok []
    | some (Entry.ok v) => Except.ok [("onoff", v)]

/-- `Light.get_lightness`: same shape as `get_onoff`, notifying `brightness`
with `present_lightness` on a valid entry. -/
def getLightness (unicast : ℤ) (call : CallResult) : Except String (List (String × ℤ)) :=
  match call with
  | Except.error e => Except.error e
  | Except.ok none => Except.error "TypeError"
  | Except.ok (some st) =>
    match st unicast with
    | none => Except.error "KeyError"
    | some Entry.null => Except.ok []
    | some Entry.err => Except.ok []
    | some (Entry.ok v) => Except.ok [("brightness", v)]

/-- `Light.get_ctl`: same validation shape as `get_onoff`, but a valid entry
is only logged — nothing is notified. -/
def getCtl (unicast : ℤ) (call : CallResult) : Except String (List (String × ℤ)) :=
  match call with
  | Except.error e => Except.error e
  | Except.ok none => Except.error "TypeError"
  | Except.ok (some st) =>
    match st unicast with
    | none => Except.error "KeyError"
    | some Entry.null => Except.ok []
    | some Entry.err => Except.ok []
    | some (Entry.ok _) => Except.ok []

/-- Counterexample to C2: `get_onoff` does not return normally on a response
mapping that lacks an entry for this node's address — `state[self.unicast]`
raises `KeyError`.  (Only `get_availability` tolerates a missing entry.) -/
theorem get_onoff_missing_entry_raises :
    getOnoff 1 (Except.ok (some (fun _ => none))) = Except.error "KeyError" := rfl

/-- C2 as amended: `get_availability` handles every probe outcome without
raising — a raised exception, a `None` mapping, a missing entry, and a `None`
or exception-typed entry all count one availability failure, and a valid entry
counts a success; the ad hoc query operations (`get_onoff`, `get_lightness`,
`get_ctl`) return normally on `None` or exception-typed entries (logged and
discarded, never counted toward availability) and notify the extracted field
on success, but they propagate a raised client exception and raise a lookup
error when the mapping is `None` or lacks this node's entry. -/
theorem query_error_handling (t u v : ℤ) (av : Availability) (e : String)
    (st : ℤ → Option Entry) :
    getAvailability t av u (Except.error e) = availabilityFailure t av
  ∧ getAvailability t av u (Except.ok none) = availabilityFailure t av
  ∧ (st u = none → getAvailability t av u (Except.ok (some st)) = availabilityFailure t av)
  ∧ (st u = some Entry.null →
       getAvailability t av u (Except.ok (some st)) = availabilityFailure t av)
  ∧ (st u = some Entry.err →
       getAvailability t av u (Except.ok (some st)) = availabilityFailure t av)
  ∧ (st u = some (Entry.ok v) →
       getAvailability t av u (Except.ok (some st)) = availabilitySuccess av)
  ∧ (st u = some Entry.null →
       getOnoff u (Except.ok (some st)) = Except.ok []
       ∧ getLightness u (Except.ok (some st)) = Except.ok []
       ∧ getCtl u (Except.ok (some st)) = Except.ok [])
  ∧ (st u = some Entry.err →
       getOnoff u (Except.ok (some st)) = Except.ok []
       ∧ getLightness u (Except.ok (some st)) = Except.ok []
       ∧ getCtl u (Except.ok (some st)) = Except.ok [])
  ∧ (st u = some (Entry.ok v) →
       getOnoff u (Except.ok (some st)) = Except.ok [("onoff", v)]
       ∧ getLightness u (Except.ok (some st)) = Except.ok [("brightness", v)]
       ∧ getCtl u (Except.ok (some st)) = Except.ok [])
  ∧ (st u = none → getOnoff u (Except.ok (some st)) = Except.error "KeyError")
  ∧ getOnoff u (Except.error e) = Except.error e
  ∧ getOnoff u (Except.ok none) = Except.error "TypeError" := by
  refine ⟨rfl, rfl, ?_, ?_, ?_, ?_, ?_, ?_, ?_, ?_, rfl, rfl⟩ <;>
    intro h <;> simp [getAvailability, getOnoff, getLightness, getCtl, h]

/-- Witness for C2's amended theorem: concrete responses exercising the
missing-entry, exception-typed and valid-entry cases. -/
theorem query_error_handling_witness :
    getAvailability 3 ⟨0, AvState.unknown⟩ 1 (Except.ok (some (fun _ => none)))
      = availabilityFailure 3 ⟨0, AvState.unknown⟩
  ∧ (getOnoff 1 (Except.ok (some (fun _ => some Entry.err))) = Except.ok []
      ∧ getLightness 1 (Except.ok (some (fun _ => some Entry.err))) = Except.ok []
      ∧ getCtl 1 (Except.ok (some (fun _ => some Entry.err))) = Except.ok [])
  ∧ (getOnoff 1 (Except.ok (some (fun _ => some (Entry.ok 7)))) = Except.ok [("onoff", 7)]
      ∧ getLightness 1 (Except.ok (some (fun _ => some (Entry.ok 7))))
          = Except.ok [("brightness", 7)]
      ∧ getCtl 1 (Except.ok (some (fun _ => some (Entry.ok 7)))) = Except.ok []) :=
  ⟨(query_error_handling 3 1 0 ⟨0, AvState.unknown⟩ "" (fun _ => none)).2.2.1 rfl,
   (query_error_handling 3 1 0 ⟨0, AvState.unknown⟩ "" (fun _ => some Entry.err)).2.2.2.2.2.2.2.1
     rfl,
   (query_error_handling 3 1 7 ⟨0, AvState.unknown⟩ ""
     (fun _ => some (Entry.ok 7))).2.2.2.2.2.2.2.2.1 rfl⟩

/-- The composition data of a node as `bind_model` uses it: the model list of
element zero (`self._composition.element(0)`; `Element.supports(model)` is
membership in that list). -/
structure Composition where
  elementZeroModels : List ℤ
  deriving DecidableEq

/-- The outgoing `client.bind_app_key` request of `Generic.bind_model`. -/
structure BindRequest where
  destination : ℤ
  net_index : ℤ
  element_address : ℤ
  app_key_index : ℤ
  model : ℤ
  deriving DecidableEq

/-- `Generic.bind_model`: with a composition present, an unsupported model is
skipped and `False` returned; otherwise (including the permissive fallback
when the composition is absent) one `bind_app_key` request is issued for the
node's unicast address with network index 0 and the application's first
app-key index (`self._app.app_keys[0][0]`, the `app_key_index` parameter), the
model is added to `_bound_models`, and `True` is returned.  Returns the flag,
the issued requests and the updated bound-model set. -/
def bindModel (unicast app_key_index : ℤ) (comp : Option Composition) (bound : List ℤ)
    (model : ℤ) : Bool × List BindRequest × List ℤ :=
  match comp with
  | some c =>
    if model ∈ c.elementZeroModels then
      (true, [⟨unicast, 0, unicast, app_key_index, model⟩], List.insert model bound)
    else
      (false, [], bound)
  | none =>
    (true, [⟨unicast, 0, unicast, app_key_index, model⟩], List.insert model bound)

/-- C3: when the composition is present and element zero does not support the
model, `bind_model` returns false, issues no bind request and leaves the
bound-model set unchanged; when element zero supports the model, or the
composition is absent (permissive fallback), it issues exactly one
`bind_app_key` request for the node's unicast address with network index 0 and
the application's first app-key index, adds the model to the bound set, and
returns true. -/
theorem bind_model_correct (u akey m : ℤ) (c : Composition) (bound : List ℤ) :
    (m ∉ c.elementZeroModels →
       bindModel u akey (some c) bound m = (false, [], bound))
  ∧ (m ∈ c.elementZeroModels →
       bindModel u akey (some c) bound m
         = (true, [⟨u, 0, u, akey, m⟩], List.insert m bound)
       ∧ m ∈ (bindModel u akey (some c) bound m).2.2)
  ∧ (bindModel u akey none bound m = (true, [⟨u, 0, u, akey, m⟩], List.insert m bound)
       ∧ m ∈ (bindModel u akey none bound m).2.2) := by
  refine ⟨fun h => by simp [bindModel, h], fun h => ⟨by simp [bindModel, h], ?_⟩,
    rfl, ?_⟩
  · simp [bindModel, h, List.mem_insert_iff]
  · simp [bindModel, List.mem_insert_iff]

/-- Witness for C3: composition `[100, 200]`, binding unsupported model 5 and
supported model 100. -/
theorem bind_model_correct_witness :
    bindModel 9 2 (some ⟨[100, 200]⟩) [7] 5 = (false, [], [7])
  ∧ bindModel 9 2 (some ⟨[100, 200]⟩) [7] 100
      = (true, [⟨9, 0, 9, 2, 100⟩], List.insert 100 [7]) :=
  ⟨(bind_model_correct 9 2 5 ⟨[100, 200]⟩ [7]).1 (by decide),
   ((bind_model_correct 9 2 100 ⟨[100, 200]⟩ [7]).2.1 (by decide)).1⟩

end BleMesh
